import Mathlib

/-!
Verification of the pricing-calculator component (warpoint_frontend).

The component holds a tariff catalog, an exchange-rate table, and three
user selections (tariff id, currency code, payment-option id).  Derived
values (`selectedTariff`, `exchangeRate`, `totalAmount`, `discount`,
`canSubmit`) are pure functions of this state, and a watcher resets
currency / payment option when the tariff id changes.

Numbers are modelled as rationals; JavaScript values that may be a
number, `NaN`, or `undefined` are modelled by `JsNum`.  JavaScript
truthiness of `number | null` and `string | null` fields is modelled
explicitly (`0`, `""` and `null` are falsy).
-/

namespace Warpoint

/-- Currency enumeration (`@/shared/enums`).  The enum source is not in
the repository; the spec's examples name RUB, USD and EUR. -/
inductive Currency where
  | RUB
  | USD
  | EUR
deriving DecidableEq, Repr

/-- Modelled from the spec: `tickerFromCurrency` (`@/shared/utils`, not in
the repository) converts a `Currency` enumeration value to its 3-letter
ticker form, e.g. `"USD"`. -/
def tickerFromCurrency : Currency → String
  | .RUB => "RUB"
  | .USD => "USD"
  | .EUR => "EUR"

/-- `IPaymentOption` from `shared/types`. -/
structure IPaymentOption where
  id : Int
  basePrice : ℚ
  paymentPeriod : String
deriving DecidableEq, Repr

/-- `ITariff` from `shared/types`. -/
structure ITariff where
  id : Int
  name : String
  paymentOptions : List IPaymentOption
  baseCurrency : Currency
deriving DecidableEq, Repr

/-- `ICurrencyResponse` / `IExchangeData` from `shared/types`:
`base_code` plus a mapping ticker → multiplier. -/
structure IExchangeData where
  base_code : String
  conversion_rates : List (String × ℚ)
deriving DecidableEq, Repr

/-- `IFormValues`: the three user selections, each nullable. -/
structure IFormValues where
  tariffId : Option Int
  currency : Option String
  paymentOptionId : Option Int
deriving DecidableEq, Repr

/-- JavaScript truthiness of a `number | null` value: `null` and `0` are
falsy. -/
def numTruthy : Option Int → Bool
  | none => false
  | some n => n != 0

/-- JavaScript truthiness of a `string | null` value: `null` and `""` are
falsy. -/
def strTruthy : Option String → Bool
  | none => false
  | some s => s != ""

/-- A JavaScript numeric result: a number, `NaN`, or `undefined`. -/
inductive JsNum where
  | num (q : ℚ)
  | nan
  | undef
deriving DecidableEq, Repr

/-- JavaScript multiplication on `JsNum`: any operand that is `NaN` or
`undefined` yields `NaN` (ToNumber coerces `undefined` to `NaN`). -/
def jsMul : JsNum → JsNum → JsNum
  | .num a, .num b => .num (a * b)
  | _, _ => .nan

/-- Half-away-from-zero rounding to 2 decimal places over ℚ: the idealized
meaning of `(x).toFixed(2)` followed by unary `+` reparsing. -/
def round2 (q : ℚ) : ℚ :=
  let scaled := q * 100
  let r : Int := if 0 ≤ scaled then ⌊scaled + 1 / 2⌋ else -⌊-scaled + 1 / 2⌋
  (r : ℚ) / 100

/-- `+(x).toFixed(2)` on a `JsNum`: rounds a number, and maps `NaN` to
`NaN` (`NaN.toFixed(2)` is `"NaN"`, reparsed as `NaN`). -/
def jsToFixed2 : JsNum → JsNum
  | .num q => .num (round2 q)
  | _ => .nan

/-- `selectedTariff`: first tariff whose id strictly equals
`formValues.tariffId`, or none. -/
def selectedTariff (tariffs : List ITariff) (fv : IFormValues) : Option ITariff :=
  tariffs.find? (fun t => some t.id == fv.tariffId)

/-- `exchangeRate` computed ref: the guard
`!selectedTariff || !currency || !paymentOptionId` returns 0; a miss on
`exchangeRates.find` or a falsy ticker returns 0; otherwise the raw map
access `rates.conversion_rates[currency]`, which is `undefined` when the
map has no such key. -/
def exchangeRate (tariffs : List ITariff) (rates : List IExchangeData)
    (fv : IFormValues) : JsNum :=
  if (selectedTariff tariffs fv).isNone || !(strTruthy fv.currency)
      || !(numTruthy fv.paymentOptionId) then .num 0
  else
    match selectedTariff tariffs fv, fv.currency with
    | some t, some c =>
      let baseCurrency := tickerFromCurrency t.baseCurrency
      match rates.find? (fun r => r.base_code == baseCurrency) with
      | none => .num 0
      | some r =>
        if baseCurrency == "" then .num 0
        else
          match r.conversion_rates.lookup c with
          | some q => .num q
          | none => .undef
    | _, _ => .num 0

/-- `totalAmount` computed ref: the guard
`!selectedTariff || !formValues || !paymentOptionId` returns 0; a missing
matching option returns 0; otherwise
`+(basePrice * exchangeRate).toFixed(2)`. -/
def totalAmount (tariffs : List ITariff) (rates : List IExchangeData)
    (fv : IFormValues) : JsNum :=
  if (selectedTariff tariffs fv).isNone || !(numTruthy fv.paymentOptionId) then .num 0
  else
    match selectedTariff tariffs fv with
    | none => .num 0
    | some t =>
      match t.paymentOptions.find? (fun o => some o.id == fv.paymentOptionId) with
      | none => .num 0
      | some o => jsToFixed2 (jsMul (.num o.basePrice) (exchangeRate tariffs rates fv))

/-- `discount` computed ref.  `getDiscountForOption` (`@/shared/utils`) is
not in the repository; the spec calls it an opaque per-option collaborator
rule, so it is passed as a parameter.  Returns 0 unless all three
selections are truthy and a tariff is selected; otherwise the collaborator
value rounded to 2 decimals (`disc ? +disc.toFixed(2) : 0`). -/
def discount (getDiscountForOption : List IPaymentOption → Int → ℚ)
    (tariffs : List ITariff) (fv : IFormValues) : ℚ :=
  if (selectedTariff tariffs fv).isNone || !(numTruthy fv.paymentOptionId)
      || !(strTruthy fv.currency) || !(numTruthy fv.tariffId) then 0
  else
    match selectedTariff tariffs fv, fv.paymentOptionId with
    | some t, some poid =>
      let disc := getDiscountForOption t.paymentOptions poid
      if disc == 0 then 0 else round2 disc
    | _, _ => 0

/-- The template binding `:discount="discount * exchangeRate"` on
`CalculatorFieldDisplayTotal`: the rounded base-currency discount is
converted to the display currency by the caller. -/
def displayedDiscount (getDiscountForOption : List IPaymentOption → Int → ℚ)
    (tariffs : List ITariff) (rates : List IExchangeData)
    (fv : IFormValues) : JsNum :=
  jsMul (.num (discount getDiscountForOption tariffs fv)) (exchangeRate tariffs rates fv)

/-- `canSubmit` computed ref: truthiness of
`tariffId && currency && paymentOptionId`. -/
def canSubmit (fv : IFormValues) : Bool :=
  numTruthy fv.tariffId && strTruthy fv.currency && numTruthy fv.paymentOptionId

/-- The `watch` callback on `formValues.tariffId` (the tariff reset rule).
`.error ()` models the JavaScript `TypeError` thrown by
`paymentOptions[0].id` when `paymentOptions` is an empty array (an empty
array passes both `paymentOptions &&` and `Array.isArray`); the throw
happens before either assignment, so the form values are unchanged in that
case.  `!selectedCurrency` and `!firstPeriodId` are JavaScript falsiness
tests, so an empty ticker or a zero id is replaced by `null`. -/
def watchReset (tariffs : List ITariff) (newTariffId : Option Int)
    (fv : IFormValues) : Except Unit IFormValues :=
  match tariffs.find? (fun t => some t.id == newTariffId) with
  | none => .ok fv
  | some t =>
    let selectedCurrency := tickerFromCurrency t.baseCurrency
    match t.paymentOptions with
    | [] => .error ()
    | o :: _ =>
      .ok { fv with
            currency := if selectedCurrency == "" then none else some selectedCurrency,
            paymentOptionId := if o.id == 0 then none else some o.id }

/-- The component's fetched-data state plus the loading flag. -/
structure CalculatorState where
  tariffs : List ITariff
  exchangeRates : List IExchangeData
  isLoading : Bool
deriving DecidableEq, Repr

/-- Initial state: empty datasets, loading flag set. -/
def initialState : CalculatorState :=
  { tariffs := [], exchangeRates := [], isLoading := true }

/-- One observable mutation performed by `fetchData`. -/
inductive LoadEvent where
  | setTariffs (ts : List ITariff)
  | setRates (rs : List IExchangeData)
  | logError
  | setLoading (b : Bool)
deriving DecidableEq, Repr

/-- The sequence of mutations `fetchData` performs, as a function of the
outcome of the awaited `fetchCalculatorData()` collaborator (success value
or thrown error).  On success both datasets are assigned consecutively; on
failure the catch block only logs; the finally block clears the loading
flag last in both paths. -/
def fetchDataTrace
    (result : Except Unit (List ITariff × List IExchangeData)) : List LoadEvent :=
  match result with
  | .ok (fetchedTariffs, fetchedRates) =>
    [.setTariffs fetchedTariffs, .setRates fetchedRates, .setLoading false]
  | .error _ => [.logError, .setLoading false]

/-- Effect of a single mutation on the component state. -/
def applyEvent (s : CalculatorState) : LoadEvent → CalculatorState
  | .setTariffs ts => { s with tariffs := ts }
  | .setRates rs => { s with exchangeRates := rs }
  | .logError => s
  | .setLoading b => { s with isLoading := b }

/-- Run a mutation sequence from a starting state. -/
def runTrace (s : CalculatorState) (evs : List LoadEvent) : CalculatorState :=
  evs.foldl applyEvent s

/-! Helper lemmas shared by the claim theorems. -/

theorem round2_zero : round2 0 = 0 := by norm_num [round2]

theorem tickerFromCurrency_ne_empty (c : Currency) : tickerFromCurrency c ≠ "" := by
  cases c <;> simp [tickerFromCurrency]

theorem find?_opt_eq (o : IPaymentOption) (l : List IPaymentOption) (x : Option Int)
    (h : l.find? (fun y => some y.id == x) = some o) : x = some o.id := by
  have hb := List.find?_some h
  exact (eq_of_beq hb).symm

theorem exchangeRate_zero_of_poid (tariffs : List ITariff) (rates : List IExchangeData)
    (fv : IFormValues) (h : numTruthy fv.paymentOptionId = false) :
    exchangeRate tariffs rates fv = .num 0 := by
  unfold exchangeRate
  simp [h]

theorem totalAmount_formula (tariffs : List ITariff) (rates : List IExchangeData)
    (fv : IFormValues) (t : ITariff) (o : IPaymentOption) (r : ℚ)
    (ht : selectedTariff tariffs fv = some t)
    (hfind : t.paymentOptions.find? (fun x => some x.id == fv.paymentOptionId) = some o)
    (hrate : exchangeRate tariffs rates fv = .num r) :
    totalAmount tariffs rates fv = .num (round2 (o.basePrice * r)) := by
  have hpoid : fv.paymentOptionId = some o.id := find?_opt_eq o _ _ hfind
  by_cases h0 : o.id = 0
  · have hz : numTruthy fv.paymentOptionId = false := by simp [hpoid, numTruthy, h0]
    have hr0 := exchangeRate_zero_of_poid tariffs rates fv hz
    rw [hrate] at hr0
    have hr : r = 0 := by
      cases hr0
      rfl
    subst hr
    unfold totalAmount
    simp [hz, round2_zero]
  · have hz : numTruthy fv.paymentOptionId = true := by simp [hpoid, numTruthy, h0]
    unfold totalAmount
    simp [ht, hz, hfind, hrate, jsMul, jsToFixed2]

theorem totalAmount_zero_of_no_tariff (tariffs : List ITariff) (rates : List IExchangeData)
    (fv : IFormValues) (h : selectedTariff tariffs fv = none) :
    totalAmount tariffs rates fv = .num 0 := by
  unfold totalAmount
  simp [h]

theorem totalAmount_zero_of_no_option (tariffs : List ITariff) (rates : List IExchangeData)
    (fv : IFormValues) (t : ITariff)
    (ht : selectedTariff tariffs fv = some t)
    (h : t.paymentOptions.find? (fun x => some x.id == fv.paymentOptionId) = none) :
    totalAmount tariffs rates fv = .num 0 := by
  unfold totalAmount
  by_cases hz : numTruthy fv.paymentOptionId <;> simp [ht, h, hz]

theorem exchangeRate_zero_of_no_tariff (tariffs : List ITariff) (rates : List IExchangeData)
    (fv : IFormValues) (h : selectedTariff tariffs fv = none) :
    exchangeRate tariffs rates fv = .num 0 := by
  unfold exchangeRate
  simp [h]

theorem exchangeRate_zero_of_currency (tariffs : List ITariff) (rates : List IExchangeData)
    (fv : IFormValues) (h : strTruthy fv.currency = false) :
    exchangeRate tariffs rates fv = .num 0 := by
  unfold exchangeRate
  simp [h]

theorem exchangeRate_through (tariffs : List ITariff) (rates : List IExchangeData)
    (fv : IFormValues) (t : ITariff) (c : String)
    (ht : selectedTariff tariffs fv = some t) (hcur : fv.currency = some c)
    (hc : c ≠ "") (hp : numTruthy fv.paymentOptionId = true) :
    exchangeRate tariffs rates fv =
      (match rates.find? (fun x => x.base_code == tickerFromCurrency t.baseCurrency) with
       | none => .num 0
       | some entry =>
         match entry.conversion_rates.lookup c with
         | some q => .num q
         | none => .undef) := by
  have hstr : strTruthy (some c) = true := by simp [strTruthy, hc]
  unfold exchangeRate
  simp [ht, hcur, hstr, hp, tickerFromCurrency_ne_empty t.baseCurrency]

/-! Claim theorems. -/

/-- C1 counterexample: in a catalog whose only tariff has a single payment
option with id 0, the reset rule that fires when `tariffId` becomes that
tariff's id sets `paymentOptionId` to `null`, not to the first option's id
0 as the claim requires: `!firstPeriodId` is true for the falsy id 0. -/
theorem C1_counterexample :
    watchReset
      [{ id := 1, name := "Base",
         paymentOptions := [{ id := 0, basePrice := 10, paymentPeriod := "month" }],
         baseCurrency := .USD }]
      (some 1)
      { tariffId := some 1, currency := none, paymentOptionId := none } =
    .ok { tariffId := some 1, currency := some "USD", paymentOptionId := none } := by
  rfl

/-- C1 (amended): when `tariffId` transitions to the id of a catalog tariff
`T` with a non-empty payment-option sequence, the reset rule sets
`currency` to the ticker form of `T.baseCurrency` and `paymentOptionId` to
the id of `T.paymentOptions[0]` when that id is nonzero, and to `null`
when that id is 0 (a falsy id). -/
theorem C1_reset_amended (tariffs : List ITariff) (T : ITariff) (fv : IFormValues)
    (o : IPaymentOption) (rest : List IPaymentOption)
    (hT : tariffs.find? (fun t => some t.id == some T.id) = some T)
    (hopts : T.paymentOptions = o :: rest) :
    watchReset tariffs (some T.id) fv =
      .ok { fv with currency := some (tickerFromCurrency T.baseCurrency),
                    paymentOptionId := if o.id = 0 then none else some o.id } := by
  unfold watchReset
  rw [hT]
  simp [hopts, tickerFromCurrency_ne_empty T.baseCurrency]

/-- C1 witness: selecting the tariff with id 1, base currency USD and first
option id 10 sets `currency` to `"USD"` and `paymentOptionId` to 10. -/
theorem C1_reset_amended_witness :
    watchReset
      [{ id := 1, name := "Base",
         paymentOptions := [{ id := 10, basePrice := 999 / 100, paymentPeriod := "month" }],
         baseCurrency := .USD }]
      (some 1)
      { tariffId := some 1, currency := none, paymentOptionId := none } =
    .ok { tariffId := some 1, currency := some "USD", paymentOptionId := some 10 } := by
  have h := C1_reset_amended
    [{ id := 1, name := "Base",
       paymentOptions := [{ id := 10, basePrice := 999 / 100, paymentPeriod := "month" }],
       baseCurrency := .USD }]
    { id := 1, name := "Base",
      paymentOptions := [{ id := 10, basePrice := 999 / 100, paymentPeriod := "month" }],
      baseCurrency := .USD }
    { tariffId := some 1, currency := none, paymentOptionId := none }
    { id := 10, basePrice := 999 / 100, paymentPeriod := "month" } [] (by rfl) (by rfl)
  simpa using h

/-- C2: the claim says selecting a tariff with an empty payment-option
sequence completes without throwing and sets `paymentOptionId` to `null`.
The code instead throws: an empty array passes both `paymentOptions &&`
and `Array.isArray(paymentOptions)`, so `paymentOptions[0].id` reads `.id`
of `undefined` — a `TypeError` — before any assignment happens.  The
modelled reset rule returns the throw outcome on this input. -/
theorem C2_empty_options_throws :
    watchReset
      [{ id := 1, name := "Base", paymentOptions := [], baseCurrency := .USD }]
      (some 1)
      { tariffId := some 1, currency := none, paymentOptionId := none } = .error () := by
  rfl

/-- C7: when `tariffId` transitions to a value (including null) that
matches no tariff in the current catalog, the reset rule takes no action:
the form values, in particular `currency` and `paymentOptionId`, are
returned exactly as they were. -/
theorem C7_reset_frame (tariffs : List ITariff) (newTariffId : Option Int) (fv : IFormValues)
    (h : tariffs.find? (fun t => some t.id == newTariffId) = none) :
    watchReset tariffs newTariffId fv = .ok fv := by
  unfold watchReset
  rw [h]

/-- C7 witness: a transition to null in a non-empty catalog leaves a
populated selection untouched. -/
theorem C7_reset_frame_witness :
    watchReset [{ id := 1, name := "Base", paymentOptions := [], baseCurrency := .USD }] none
      { tariffId := none, currency := some "EUR", paymentOptionId := some 7 } =
    .ok { tariffId := none, currency := some "EUR", paymentOptionId := some 7 } :=
  C7_reset_frame _ _ _ (by rfl)

/-- C3: when a tariff `t` is selected, the selected `paymentOptionId`
matches an option `o` of `t`, and `exchangeRate` evaluates to the number
`r`, then `totalAmount` is `o.basePrice * r` rounded to 2 decimal places
(half away from zero, the meaning of `toFixed(2)` + reparse); and
`totalAmount` is 0 when no tariff, or no matching payment option, is
selected. -/
theorem C3_totalAmount (tariffs : List ITariff) (rates : List IExchangeData)
    (fv : IFormValues) :
    (∀ t o r, selectedTariff tariffs fv = some t →
      t.paymentOptions.find? (fun x => some x.id == fv.paymentOptionId) = some o →
      exchangeRate tariffs rates fv = .num r →
      totalAmount tariffs rates fv = .num (round2 (o.basePrice * r))) ∧
    (selectedTariff tariffs fv = none → totalAmount tariffs rates fv = .num 0) ∧
    (∀ t, selectedTariff tariffs fv = some t →
      t.paymentOptions.find? (fun x => some x.id == fv.paymentOptionId) = none →
      totalAmount tariffs rates fv = .num 0) := by
  refine ⟨?_, ?_, ?_⟩
  · intro t o r ht hfind hrate
    exact totalAmount_formula tariffs rates fv t o r ht hfind hrate
  · intro h
    exact totalAmount_zero_of_no_tariff tariffs rates fv h
  · intro t ht h
    exact totalAmount_zero_of_no_option tariffs rates fv t ht h

/-- C3 witness: the spec's own scenario — base price 9.99, rate EUR 0.9 —
yields 9.99 * 0.9 = 8.991, displayed as 8.99. -/
theorem C3_totalAmount_witness :
    totalAmount
      [{ id := 1, name := "Base",
         paymentOptions := [{ id := 10, basePrice := 999 / 100, paymentPeriod := "month" }],
         baseCurrency := .USD }]
      [{ base_code := "USD", conversion_rates := [("EUR", 9 / 10)] }]
      { tariffId := some 1, currency := some "EUR", paymentOptionId := some 10 } =
    .num (899 / 100) := by
  have h := (C3_totalAmount
      [{ id := 1, name := "Base",
         paymentOptions := [{ id := 10, basePrice := 999 / 100, paymentPeriod := "month" }],
         baseCurrency := .USD }]
      [{ base_code := "USD", conversion_rates := [("EUR", 9 / 10)] }]
      { tariffId := some 1, currency := some "EUR", paymentOptionId := some 10 }).1
    { id := 1, name := "Base",
      paymentOptions := [{ id := 10, basePrice := 999 / 100, paymentPeriod := "month" }],
      baseCurrency := .USD }
    { id := 10, basePrice := 999 / 100, paymentPeriod := "month" }
    (9 / 10) (by rfl) (by rfl) (by rfl)
  rw [h]
  norm_num [round2]

/-- C4 counterexample: all three selections are present, a rate entry
exists for the base ticker "USD", but its conversion map has no key for
the selected currency "EUR": `exchangeRate` evaluates to the absent value
`undefined`, not to 0 as the claim states for this lookup miss. -/
theorem C4_counterexample :
    exchangeRate
      [{ id := 1, name := "Base",
         paymentOptions := [{ id := 10, basePrice := 999 / 100, paymentPeriod := "month" }],
         baseCurrency := .USD }]
      [{ base_code := "USD", conversion_rates := [("RUB", 95)] }]
      { tariffId := some 1, currency := some "EUR", paymentOptionId := some 10 } =
      .undef ∧ JsNum.undef ≠ JsNum.num 0 := by
  exact ⟨by rfl, by simp⟩

/-- C4 (amended): `exchangeRate` returns 0 when any of the three
selections is absent (falsy) and when no rate entry matches the selected
tariff's base-currency ticker; but when such an entry exists and its
conversion map has no value for the selected currency, `exchangeRate`
evaluates to the absent value `undefined`, not 0. -/
theorem C4_exchangeRate_amended (tariffs : List ITariff) (rates : List IExchangeData)
    (fv : IFormValues) :
    (selectedTariff tariffs fv = none → exchangeRate tariffs rates fv = .num 0) ∧
    (strTruthy fv.currency = false → exchangeRate tariffs rates fv = .num 0) ∧
    (numTruthy fv.paymentOptionId = false → exchangeRate tariffs rates fv = .num 0) ∧
    (∀ t, selectedTariff tariffs fv = some t →
      rates.find? (fun x => x.base_code == tickerFromCurrency t.baseCurrency) = none →
      exchangeRate tariffs rates fv = .num 0) ∧
    (∀ t entry c, selectedTariff tariffs fv = some t → fv.currency = some c → c ≠ "" →
      numTruthy fv.paymentOptionId = true →
      rates.find? (fun x => x.base_code == tickerFromCurrency t.baseCurrency) = some entry →
      entry.conversion_rates.lookup c = none →
      exchangeRate tariffs rates fv = .undef) := by
  refine ⟨fun h => exchangeRate_zero_of_no_tariff tariffs rates fv h,
    fun h => exchangeRate_zero_of_currency tariffs rates fv h,
    fun h => exchangeRate_zero_of_poid tariffs rates fv h, ?_, ?_⟩
  · intro t ht hmiss
    by_cases hc : strTruthy fv.currency = true
    · by_cases hp : numTruthy fv.paymentOptionId = true
      · cases hcur : fv.currency with
        | none => rw [hcur] at hc; simp [strTruthy] at hc
        | some c =>
          have hc' : c ≠ "" := by
            rw [hcur] at hc
            simpa [strTruthy] using hc
          rw [exchangeRate_through tariffs rates fv t c ht hcur hc' hp, hmiss]
      · exact exchangeRate_zero_of_poid tariffs rates fv (by simpa using hp)
    · exact exchangeRate_zero_of_currency tariffs rates fv (by simpa using hc)
  · intro t entry c ht hcur hc hp hentry hmiss
    rw [exchangeRate_through tariffs rates fv t c ht hcur hc hp, hentry]
    simp [hmiss]

/-- C4 witness: with no tariff selected the rate is 0; and in the
counterexample state (entry present, currency key missing) the rate is
`undefined`. -/
theorem C4_exchangeRate_amended_witness :
    exchangeRate [] [] { tariffId := none, currency := none, paymentOptionId := none } =
      .num 0 ∧
    exchangeRate
      [{ id := 1, name := "Base",
         paymentOptions := [{ id := 10, basePrice := 999 / 100, paymentPeriod := "month" }],
         baseCurrency := .USD }]
      [{ base_code := "USD", conversion_rates := [("RUB", 95)] }]
      { tariffId := some 1, currency := some "EUR", paymentOptionId := some 10 } = .undef := by
  constructor
  · exact (C4_exchangeRate_amended [] []
      { tariffId := none, currency := none, paymentOptionId := none }).1 (by rfl)
  · exact (C4_exchangeRate_amended
      [{ id := 1, name := "Base",
         paymentOptions := [{ id := 10, basePrice := 999 / 100, paymentPeriod := "month" }],
         baseCurrency := .USD }]
      [{ base_code := "USD", conversion_rates := [("RUB", 95)] }]
      { tariffId := some 1, currency := some "EUR", paymentOptionId := some 10 }).2.2.2.2
      { id := 1, name := "Base",
        paymentOptions := [{ id := 10, basePrice := 999 / 100, paymentPeriod := "month" }],
        baseCurrency := .USD }
      { base_code := "USD", conversion_rates := [("RUB", 95)] }
      "EUR" (by rfl) (by rfl) (by simp) (by rfl) (by rfl) (by rfl)

/-- C10: when a tariff is selected, the selected currency `c` is non-empty,
the selected `paymentOptionId` matches an option of the tariff with a
nonzero id, a rate entry exists for the tariff's base-currency ticker, but
that entry's conversion map has no key `c`, then `exchangeRate` evaluates
to the absent value `undefined` (not the number 0) and `totalAmount`
consequently evaluates to `NaN` rather than 0. -/
theorem C10_missing_rate_key (tariffs : List ITariff) (rates : List IExchangeData)
    (fv : IFormValues) (t : ITariff) (o : IPaymentOption) (entry : IExchangeData) (c : String)
    (ht : selectedTariff tariffs fv = some t)
    (hcur : fv.currency = some c) (hc : c ≠ "")
    (hfind : t.paymentOptions.find? (fun x => some x.id == fv.paymentOptionId) = some o)
    (ho : o.id ≠ 0)
    (hentry : rates.find? (fun x => x.base_code == tickerFromCurrency t.baseCurrency) = some entry)
    (hmiss : entry.conversion_rates.lookup c = none) :
    exchangeRate tariffs rates fv = .undef ∧ totalAmount tariffs rates fv = .nan := by
  have hpoid : fv.paymentOptionId = some o.id := find?_opt_eq o _ _ hfind
  have hp : numTruthy fv.paymentOptionId = true := by simp [hpoid, numTruthy, ho]
  have hrate : exchangeRate tariffs rates fv = .undef := by
    rw [exchangeRate_through tariffs rates fv t c ht hcur hc hp, hentry]
    simp [hmiss]
  refine ⟨hrate, ?_⟩
  unfold totalAmount
  simp [ht, hp, hfind, hrate, jsMul, jsToFixed2]

/-- C10 witness: concrete state in which the USD entry lacks the selected
"EUR" key: the rate is `undefined` and the total is `NaN`. -/
theorem C10_missing_rate_key_witness :
    exchangeRate
      [{ id := 1, name := "Base",
         paymentOptions := [{ id := 10, basePrice := 999 / 100, paymentPeriod := "month" }],
         baseCurrency := .USD }]
      [{ base_code := "USD", conversion_rates := [("RUB", 95)] }]
      { tariffId := some 1, currency := some "EUR", paymentOptionId := some 10 } = .undef ∧
    totalAmount
      [{ id := 1, name := "Base",
         paymentOptions := [{ id := 10, basePrice := 999 / 100, paymentPeriod := "month" }],
         baseCurrency := .USD }]
      [{ base_code := "USD", conversion_rates := [("RUB", 95)] }]
      { tariffId := some 1, currency := some "EUR", paymentOptionId := some 10 } = .nan :=
  C10_missing_rate_key
    [{ id := 1, name := "Base",
       paymentOptions := [{ id := 10, basePrice := 999 / 100, paymentPeriod := "month" }],
       baseCurrency := .USD }]
    [{ base_code := "USD", conversion_rates := [("RUB", 95)] }]
    { tariffId := some 1, currency := some "EUR", paymentOptionId := some 10 }
    { id := 1, name := "Base",
      paymentOptions := [{ id := 10, basePrice := 999 / 100, paymentPeriod := "month" }],
      baseCurrency := .USD }
    { id := 10, basePrice := 999 / 100, paymentPeriod := "month" }
    { base_code := "USD", conversion_rates := [("RUB", 95)] }
    "EUR" (by rfl) (by rfl) (by simp) (by rfl) (by simp) (by rfl) (by rfl)

/-- C5 counterexample: the state with `tariffId = 0`, `currency = "USD"`,
`paymentOptionId = 1` has all three fields non-null, yet `canSubmit` is
false: `tariffId && ...` treats the number 0 as falsy. -/
theorem C5_counterexample :
    canSubmit { tariffId := some 0, currency := some "USD", paymentOptionId := some 1 } =
      false ∧
    ({ tariffId := some 0, currency := some "USD", paymentOptionId := some 1 } :
      IFormValues).tariffId ≠ none ∧
    ({ tariffId := some 0, currency := some "USD", paymentOptionId := some 1 } :
      IFormValues).currency ≠ none ∧
    ({ tariffId := some 0, currency := some "USD", paymentOptionId := some 1 } :
      IFormValues).paymentOptionId ≠ none := by
  refine ⟨by rfl, by simp, by simp, by simp⟩

/-- C5 (amended): `canSubmit` is true iff all three fields are truthy:
`tariffId` and `paymentOptionId` are non-null and nonzero, and `currency`
is non-null and non-empty. -/
theorem C5_canSubmit_amended (fv : IFormValues) :
    canSubmit fv = true ↔
      (∃ n, fv.tariffId = some n ∧ n ≠ 0) ∧
      (∃ s, fv.currency = some s ∧ s ≠ "") ∧
      (∃ m, fv.paymentOptionId = some m ∧ m ≠ 0) := by
  obtain ⟨tid, cur, poid⟩ := fv
  cases tid <;> cases cur <;> cases poid <;>
    simp [canSubmit, numTruthy, strTruthy, and_assoc]

/-- C8 counterexample: with an empty catalog and the state
`tariffId = 5, currency = "USD", paymentOptionId = 3`, no tariff is
selected, yet `canSubmit` is true: `canSubmit` only tests truthiness of
the three fields and never consults the catalog. -/
theorem C8_counterexample :
    selectedTariff []
      { tariffId := some 5, currency := some "USD", paymentOptionId := some 3 } = none ∧
    canSubmit { tariffId := some 5, currency := some "USD", paymentOptionId := some 3 } =
      true := by
  exact ⟨by rfl, by rfl⟩

/-- C8 (amended): when no tariff is selected (the tariff id matches no
catalog entry or is null), `totalAmount` is 0 and `discount` is 0; and
`canSubmit` is false when `tariffId` is null — but `canSubmit` does not
consult the catalog, so a non-null unmatched `tariffId` with the other
fields truthy yields `canSubmit = true`. -/
theorem C8_no_tariff_amended (getDiscountForOption : List IPaymentOption → Int → ℚ)
    (tariffs : List ITariff) (rates : List IExchangeData) (fv : IFormValues) :
    (selectedTariff tariffs fv = none →
      totalAmount tariffs rates fv = .num 0 ∧
      discount getDiscountForOption tariffs fv = 0) ∧
    (fv.tariffId = none → canSubmit fv = false) := by
  constructor
  · intro h
    refine ⟨totalAmount_zero_of_no_tariff tariffs rates fv h, ?_⟩
    unfold discount
    simp [h]
  · intro h
    simp [canSubmit, h, numTruthy]

/-- C8 witness: the all-null selection over empty datasets gives
`totalAmount = 0`, `discount = 0`, `canSubmit = false`. -/
theorem C8_no_tariff_amended_witness :
    totalAmount [] [] { tariffId := none, currency := none, paymentOptionId := none } =
      .num 0 ∧
    discount (fun _ _ => 0) []
      { tariffId := none, currency := none, paymentOptionId := none } = 0 ∧
    canSubmit { tariffId := none, currency := none, paymentOptionId := none } = false := by
  have h := C8_no_tariff_amended (fun _ _ => 0) [] []
    { tariffId := none, currency := none, paymentOptionId := none }
  exact ⟨(h.1 (by rfl)).1, (h.1 (by rfl)).2, h.2 (by rfl)⟩

/-- C9: with all three selections truthy, a tariff selected and
`exchangeRate` evaluating to the number `r`, the displayed discount
(template binding `discount * exchangeRate`) equals the collaborator's
base-currency discount rounded to 2 decimals FIRST and multiplied by `r`
AFTERWARDS — while `totalAmount` converts first and rounds afterwards,
`round2(basePrice * r)`. -/
theorem C9_discount_round_then_convert
    (getDiscountForOption : List IPaymentOption → Int → ℚ)
    (tariffs : List ITariff) (rates : List IExchangeData) (fv : IFormValues)
    (t : ITariff) (poid : Int) (r : ℚ)
    (ht : selectedTariff tariffs fv = some t)
    (hpo : fv.paymentOptionId = some poid) (hp : poid ≠ 0)
    (hcur : strTruthy fv.currency = true) (htid : numTruthy fv.tariffId = true)
    (hrate : exchangeRate tariffs rates fv = .num r) :
    displayedDiscount getDiscountForOption tariffs rates fv =
      .num (round2 (getDiscountForOption t.paymentOptions poid) * r) ∧
    (∀ o, t.paymentOptions.find? (fun x => some x.id == fv.paymentOptionId) = some o →
      totalAmount tariffs rates fv = .num (round2 (o.basePrice * r))) := by
  have hnp : numTruthy fv.paymentOptionId = true := by simp [hpo, numTruthy, hp]
  have hnp' : numTruthy (some poid) = true := by simp [numTruthy, hp]
  constructor
  · unfold displayedDiscount discount
    rw [hrate]
    simp [ht, hpo, hnp, hnp', hcur, htid, jsMul]
    by_cases hd : getDiscountForOption t.paymentOptions poid = 0
    · simp [hd, round2_zero]
    · simp [hd]
  · intro o hfind
    exact totalAmount_formula tariffs rates fv t o r ht hfind hrate

/-- C9 witness: collaborator discount 2.5, rate 0.9 — displayed discount
is round2(2.5) * 0.9 = 2.25, while the total is round2(9.99 * 0.9) =
8.99. -/
theorem C9_discount_round_then_convert_witness :
    displayedDiscount (fun _ _ => 5 / 2)
      [{ id := 1, name := "Base",
         paymentOptions := [{ id := 10, basePrice := 999 / 100, paymentPeriod := "month" }],
         baseCurrency := .USD }]
      [{ base_code := "USD", conversion_rates := [("EUR", 9 / 10)] }]
      { tariffId := some 1, currency := some "EUR", paymentOptionId := some 10 } =
      .num (9 / 4) ∧
    totalAmount
      [{ id := 1, name := "Base",
         paymentOptions := [{ id := 10, basePrice := 999 / 100, paymentPeriod := "month" }],
         baseCurrency := .USD }]
      [{ base_code := "USD", conversion_rates := [("EUR", 9 / 10)] }]
      { tariffId := some 1, currency := some "EUR", paymentOptionId := some 10 } =
      .num (899 / 100) := by
  have h := C9_discount_round_then_convert (fun _ _ => 5 / 2)
    [{ id := 1, name := "Base",
       paymentOptions := [{ id := 10, basePrice := 999 / 100, paymentPeriod := "month" }],
       baseCurrency := .USD }]
    [{ base_code := "USD", conversion_rates := [("EUR", 9 / 10)] }]
    { tariffId := some 1, currency := some "EUR", paymentOptionId := some 10 }
    { id := 1, name := "Base",
      paymentOptions := [{ id := 10, basePrice := 999 / 100, paymentPeriod := "month" }],
      baseCurrency := .USD }
    10 (9 / 10) (by rfl) (by rfl) (by simp) (by rfl) (by rfl) (by rfl)
  constructor
  · rw [h.1]
    norm_num [round2]
  · rw [h.2 { id := 10, basePrice := 999 / 100, paymentPeriod := "month" } (by rfl)]
    norm_num [round2]

/-- C6: for every outcome of the one-shot loader, the last mutation is
clearing the loading flag, that mutation occurs exactly once in the trace,
the final state has the flag false, and on fetch failure the datasets are
left at their initial empty state. -/
theorem C6_loader (result : Except Unit (List ITariff × List IExchangeData)) :
    (fetchDataTrace result).getLast? = some (.setLoading false) ∧
    (fetchDataTrace result).count (.setLoading false) = 1 ∧
    (runTrace initialState (fetchDataTrace result)).isLoading = false ∧
    (∀ e, result = .error e →
      runTrace initialState (fetchDataTrace result) =
        { tariffs := [], exchangeRates := [], isLoading := false }) := by
  cases result with
  | ok v =>
    obtain ⟨ts, rs⟩ := v
    refine ⟨rfl, ?_, rfl, ?_⟩
    · simp [fetchDataTrace, List.count_cons, List.count_nil]
    · intro e h
      simp at h
  | error e =>
    refine ⟨rfl, by rfl, rfl, fun e h => rfl⟩

/-- C6 witness: the failure outcome leaves the datasets empty, clears the
flag, and clears it as the final step. -/
theorem C6_loader_witness :
    runTrace initialState (fetchDataTrace (.error ())) =
      { tariffs := [], exchangeRates := [], isLoading := false } ∧
    (fetchDataTrace (.error ())).getLast? = some (.setLoading false) ∧
    (fetchDataTrace (.error ())).count (.setLoading false) = 1 := by
  have h := C6_loader (.error ())
  exact ⟨h.2.2.2 () rfl, h.1, h.2.1⟩

end Warpoint
